import Mathlib

/-!
Verification of the cart/order price-reconciliation logic of an e-commerce
dashboard backend, a shallow embedding of the JavaScript controllers:
`modules/cart/cartController.js`, `modules/order/orderController.js` and the
React page `src/pages/cart/cart.jsx`.

JavaScript numbers are modelled as exact rationals; a field that may be
`undefined`/`null` is an `Option ℚ` (`JsNum`).  Falsiness of a numeric value
is "absent or zero", as in JavaScript.
-/

/-- A JavaScript numeric field: `none` is `undefined`/`null`. -/
abbrev JsNum := Option ℚ

/-- JavaScript truthiness of a numeric value: present and non-zero. -/
def truthy : JsNum → Bool
  | none => false
  | some v => v != 0

/-- The JavaScript expression `a || b` on numeric fields. -/
def jsOr (a b : JsNum) : JsNum := if truthy a then a else b

/-- The JavaScript expression `a || d` where `d` is a number literal
(result is always a number). -/
def jsOrD : JsNum → ℚ → ℚ
  | none, d => d
  | some v, d => if v = 0 then d else v

/-! ## Data model

`Product`/`Variant`/`Option` as populated into cart items
(`populate("items.product", "name images variants")`). -/

/-- A variant option: `{ sku, price, priceAfterDiscount, ... }`. -/
structure VOption where
  sku : String
  price : JsNum
  priceAfterDiscount : JsNum
  deriving Repr, DecidableEq

/-- A variant group: named axis with an ordered option list. -/
structure Variant where
  vname : String
  options : List VOption
  deriving Repr, DecidableEq

/-- A product as seen by the cart/order controllers: its variant groups. -/
structure Product where
  variants : List Variant
  deriving Repr, DecidableEq

/-- A cart line item: SKU, quantity and the stored unit price
(`none`/`some 0` both mean "unresolved"). -/
structure CartItem where
  sku : String
  quantity : ℕ
  price : JsNum
  deriving Repr, DecidableEq

/-! ## Variant resolver

`cartController.js` (`getAllCartsData`, lines 58–64; identical loops in
`getAllCarts` and `fixCartPrices`) and `orderController.js` (`createOrder`,
lines 84–87):

    for (const variant of product?.variants || []) {
      matchedOption = variant.options?.find((opt) => opt.sku === item.sku);
      if (matchedOption) break;
    }
-/

/-- The resolver loop: scan variant groups in stored order; inside each group
`find` scans options in stored order; the first option whose SKU equals the
target wins; no match is `none` (NotFound), never an exception. -/
def findOptionBySku (variants : List Variant) (sku : String) : Option VOption :=
  match variants with
  | [] => none
  | v :: rest =>
    match v.options.find? (fun opt => opt.sku == sku) with
    | some opt => some opt
    | none => findOptionBySku rest sku

/-- `resolve(product, sku)` of the spec, as implemented by the scan loop. -/
def resolve (p : Product) (sku : String) : Option VOption :=
  findOptionBySku p.variants sku

/-! ## Price reconciler

`cartController.js`, `getAllCartsData` lines 66–76 (same logic in
`getAllCarts` lines 272–282 and `fixCartPrices` lines 466–475):

    let price = item.price || 0;
    if (price === 0 && matchedOption) {
      price = matchedOption.priceAfterDiscount || matchedOption.price || 0;
      if (price > 0) { needsUpdate = true; }
    }
-/

/-- Result of reconciling one item: the authoritative unit price and whether
the stored price needs a write-back (`needsUpdate` contribution). -/
structure ReconcileResult where
  price : ℚ
  wasCorrected : Bool
  deriving Repr, DecidableEq

/-- `reconcile(item, resolvedOption)`: a positive (more precisely, truthy)
stored price is authoritative; a zero/absent stored price is repaired from
the resolved option's `priceAfterDiscount || price || 0`, marked corrected
exactly when the repaired value is positive. -/
def reconcile (item : CartItem) (resolvedOption : Option VOption) : ReconcileResult :=
  let price := jsOrD item.price 0
  if price = 0 then
    match resolvedOption with
    | some opt =>
      let repaired := jsOrD opt.priceAfterDiscount (jsOrD opt.price 0)
      { price := repaired, wasCorrected := decide (0 < repaired) }
    | none => { price := 0, wasCorrected := false }
  else
    { price := price, wasCorrected := false }

/-! ## Total aggregator

`src/pages/cart/cart.jsx`.  Summary of the cart edit modal (lines 764–806):

    items.reduce((sum, item) => sum + item.quantity, 0)
    items.reduce((sum, item) => sum + item.price * item.quantity, 0)
    items.reduce(...) * (1 - (editingCart.discount || 0) / 100)

and the order summary (lines 1026–1052):

    totalPriceBeforeDiscount * (calculatedDiscountPercent / 100)   -- discount row
    totalPriceAfterDiscount * 0.1                                  -- tax row
    totalPriceAfterDiscount * 1.1                                  -- displayed total
-/

/-- A reconciled line item as the aggregator sees it. -/
structure AggItem where
  price : ℚ
  quantity : ℕ
  deriving Repr, DecidableEq

/-- `Σ quantity`, as the `reduce` over items. -/
def totalItems (items : List AggItem) : ℕ :=
  items.foldl (fun sum item => sum + item.quantity) 0

/-- `Σ (price × quantity)`, as the `reduce` over items. -/
def totalPriceBeforeDiscount (items : List AggItem) : ℚ :=
  items.foldl (fun sum item => sum + item.price * item.quantity) 0

/-- The discount row: `totalPriceBeforeDiscount * (discountPercent / 100)`. -/
def discountAmount (items : List AggItem) (discountPercent : ℚ) : ℚ :=
  totalPriceBeforeDiscount items * (discountPercent / 100)

/-- The final total of the edit modal: `subtotal * (1 - discount / 100)`. -/
def totalPriceAfterDiscount (items : List AggItem) (discountPercent : ℚ) : ℚ :=
  totalPriceBeforeDiscount items * (1 - discountPercent / 100)

/-- The displayed grand total: `totalPriceAfterDiscount * 1.1` (flat 10%
presentation-time tax). -/
def displayTotal (items : List AggItem) (discountPercent : ℚ) : ℚ :=
  totalPriceAfterDiscount items discountPercent * (11 / 10)

/-! ## Order model and handlers

`modules/order/orderController.js`.  Orders live in a document store; each
handler reads one order, mutates fields and `save`s the whole document, so a
handler is one observable state transition.  Timestamps are abstract
naturals.  The status fields are strings because `updateOrderStatus` assigns
whatever string the request carries. -/

/-- An order document, restricted to the fields the handlers touch. -/
structure Order where
  user : String
  status : String
  paymentStatus : String
  isPaid : Bool
  isDelivered : Bool
  paidAt : Option ℕ
  deliveredAt : Option ℕ
  deriving Repr, DecidableEq

/-- `orderController.js` lines 6–12: declared list of valid order statuses
(never consulted by `updateOrderStatus`). -/
def validStatuses : List String :=
  ["pending", "processing", "shipped", "delivered", "cancelled"]

/-- `orderController.js` line 13: valid payment statuses, checked by
`updatePaymentStatus`. -/
def validPaymentStatuses : List String :=
  ["pending", "paid", "failed", "refunded"]

/-- Error outcomes a handler can surface, tagged with their HTTP class. -/
inductive ApiError where
  | notFound
  | forbidden
  | invalidState
  | validationError
  deriving Repr, DecidableEq

/-- `updateOrderStatus` (lines 300–320): 404 when the order is absent,
otherwise assigns `order.status = status` with no validation and saves. -/
def updateOrderStatus (order : Option Order) (status : String) :
    Except ApiError Order :=
  match order with
  | none => .error .notFound
  | some o => .ok { o with status := status }

/-- `cancelOrder` (lines 344–369): 404 when absent, 403 when the requester
does not own the order, 400 unless the status is `pending`, else set
`cancelled` and save. -/
def cancelOrder (order : Option Order) (requester : String) :
    Except ApiError Order :=
  match order with
  | none => .error .notFound
  | some o =>
    if o.user ≠ requester then .error .forbidden
    else if o.status ≠ "pending" then .error .invalidState
    else .ok { o with status := "cancelled" }

/-- `markOrderAsPaid` (lines 322–342): sets `isPaid`, `paidAt` and
`paymentStatus = "paid"`; the order `status` field is not touched. -/
def markOrderAsPaid (o : Order) (now : ℕ) : Order :=
  { o with isPaid := true, paidAt := some now, paymentStatus := "paid" }

/-- `updateOrderToPaid` (lines 239–259): sets `isPaid`,
`paymentStatus = "paid"` and `status = "processing"`; no `paidAt`. -/
def updateOrderToPaid (o : Order) : Order :=
  { o with isPaid := true, paymentStatus := "paid", status := "processing" }

/-- `updateOrderToDelivered` (lines 261–281): sets `isDelivered`,
`deliveredAt` and `status = "delivered"`, from any current status. -/
def updateOrderToDelivered (o : Order) (now : ℕ) : Order :=
  { o with isDelivered := true, deliveredAt := some now, status := "delivered" }

/-- `updatePaymentStatus` (lines 424–456): 400 unless the payment status is
in the valid list, 404 when the order is absent; assigns `paymentStatus`,
and when it is `"paid"` also forces `status = "processing"`, `isPaid` and
`paidAt`; one save. -/
def updatePaymentStatus (order : Option Order) (ps : String) (now : ℕ) :
    Except ApiError Order :=
  if ¬ validPaymentStatuses.contains ps then .error .validationError
  else
    match order with
    | none => .error .notFound
    | some o =>
      if ps = "paid" then
        .ok { o with paymentStatus := ps, status := "processing",
                     isPaid := true, paidAt := some now }
      else
        .ok { o with paymentStatus := ps }

/-! ## Cart enumeration with best-effort price write-back

`cartController.js`, `getAllCartsData` (lines 35–148) and the identical body
of `getAllCarts` (lines 236–358).  For every cart the handler builds enriched
items and totals purely; when some item price was repaired it dispatches

    cart.save().catch((err) => console.error("Error updating cart prices:", err));

without awaiting it: the save outcome can only reach the log, never the
response.  The persistence layer is abstracted as an oracle `saveOk` telling,
per cart index, whether that dispatched save would succeed. -/

/-- A cart item as populated for enumeration: the product document rides
along with the stored item fields. -/
structure PopulatedItem where
  sku : String
  quantity : ℕ
  price : JsNum
  product : Product
  deriving Repr, DecidableEq

/-- A cart document as enumerated: its populated item list. -/
structure Cart where
  items : List PopulatedItem
  deriving Repr, DecidableEq

/-- One enriched line of the response (the fields the totals depend on). -/
structure EnrichedItem where
  sku : String
  quantity : ℕ
  price : ℚ
  totalPrice : ℚ
  deriving Repr, DecidableEq

/-- Enrich one cart item: resolve its SKU in its product and reconcile the
stored price; `totalPrice = price * quantity`. -/
def enrichItem (it : PopulatedItem) : EnrichedItem :=
  let matched := findOptionBySku it.product.variants it.sku
  let r := reconcile { sku := it.sku, quantity := it.quantity, price := it.price } matched
  { sku := it.sku, quantity := it.quantity, price := r.price,
    totalPrice := r.price * it.quantity }

/-- Whether enriching this item set `needsUpdate` (a zero/absent stored
price was repaired to a positive value). -/
def itemNeedsUpdate (it : PopulatedItem) : Bool :=
  (reconcile { sku := it.sku, quantity := it.quantity, price := it.price }
    (findOptionBySku it.product.variants it.sku)).wasCorrected

/-- The per-cart slice of the response: enriched items, `grandTotal` and
`totalItems`, exactly the fields `getAllCartsData` attaches to the cart. -/
structure CartView where
  items : List EnrichedItem
  totalPrice : ℚ
  totalItems : ℕ
  deriving Repr, DecidableEq

/-- Build one cart's view (the pure part of the enumeration loop). -/
def cartView (c : Cart) : CartView :=
  let enriched := c.items.map enrichItem
  { items := enriched,
    totalPrice := enriched.foldl (fun sum it => sum + it.totalPrice) 0,
    totalItems := c.items.foldl (fun sum it => sum + it.quantity) 0 }

/-- Whether the enumeration dispatches a write-back for this cart
(`needsUpdate` after its item loop). -/
def cartNeedsUpdate (c : Cart) : Bool :=
  c.items.any itemNeedsUpdate

/-- The enumeration response together with the console log produced by the
fire-and-forget saves. -/
structure GetAllCartsResult where
  carts : List CartView
  log : List String
  deriving Repr, DecidableEq

/-- `getAllCartsData`: map every cart to its view; for each cart that needs
an update, dispatch a save whose failure (per the `saveOk` oracle) is only
appended to the log.  The function is total: it always returns the views. -/
def getAllCartsData (carts : List Cart) (saveOk : ℕ → Bool) : GetAllCartsResult :=
  { carts := carts.map cartView,
    log :=
      (List.range carts.length).filterMap (fun i =>
        match carts[i]? with
        | some c =>
          if cartNeedsUpdate c ∧ ¬ saveOk i then
            some "Error updating cart prices"
          else none
        | none => none) }

/-! ## Order creation

`orderController.js`, `createOrder` lines 78–110:

    const items = cart.items.map((item) => {
      ...resolver loop...
      if (!matchedOption) { throw new AppError(`Invalid SKU ...`, 400); }
      const price = matchedOption.priceAfterDiscount || matchedOption.price;
      return { product, sku, quantity: item.quantity, price };
    });

The thrown `AppError` aborts the whole handler (caught by `asyncHandler`),
so the map is an all-or-nothing traversal. -/

/-- An order line item as built at checkout; the price comes from
`priceAfterDiscount || price` with no numeric fallback, hence `JsNum`. -/
structure OrderItem where
  sku : String
  quantity : ℕ
  price : JsNum
  deriving Repr, DecidableEq

/-- Build one order item from a cart item: resolve the SKU in its product;
no match throws the 400 `AppError`; else take the option's
`priceAfterDiscount || price`, ignoring the cart item's stored price. -/
def buildOrderItem (it : PopulatedItem) : Except ApiError OrderItem :=
  match findOptionBySku it.product.variants it.sku with
  | none => .error .validationError
  | some opt =>
    .ok { sku := it.sku, quantity := it.quantity,
          price := jsOr opt.priceAfterDiscount opt.price }

/-- The checkout map over the cart's items: all items build, or the first
unresolved SKU aborts the whole order with the 400 error (the throw inside
`map` escapes the handler). -/
def createOrderItems : List PopulatedItem → Except ApiError (List OrderItem)
  | [] => .ok []
  | it :: rest =>
    match buildOrderItem it with
    | .error e => .error e
    | .ok oi =>
      match createOrderItems rest with
      | .error e => .error e
      | .ok l => .ok (oi :: l)

/-! ## Helper lemmas -/

/-- `a || d` with a numeric default is the truthiness case split. -/
theorem jsOrD_eq (a : JsNum) (d : ℚ) :
    jsOrD a d = if truthy a then a.getD 0 else d := by
  cases a with
  | none => simp [jsOrD, truthy]
  | some v =>
    by_cases hv : v = 0 <;> simp [jsOrD, truthy, hv]

/-- A `reduce((sum, x) => sum + f(x), a)` is `a` plus the sum of the mapped
list. -/
theorem foldl_add_map {α β : Type} [AddCommMonoid β] (f : α → β)
    (l : List α) (a : β) :
    l.foldl (fun sum x => sum + f x) a = a + (l.map f).sum := by
  induction l generalizing a with
  | nil => simp
  | cons x xs ih => simp [ih (a + f x), add_assoc]

/-- The resolver loop scans the concatenation of all option lists in
variant-then-option order. -/
theorem findOptionBySku_eq_find_flat (variants : List Variant) (sku : String) :
    findOptionBySku variants sku =
      (variants.flatMap Variant.options).find? (fun opt => opt.sku == sku) := by
  induction variants with
  | nil => rfl
  | cons v rest ih =>
    have hl : findOptionBySku (v :: rest) sku =
        match v.options.find? (fun opt => opt.sku == sku) with
        | some opt => some opt
        | none => findOptionBySku rest sku := rfl
    rw [List.flatMap_cons, List.find?_append, ← ih, hl]
    cases h : v.options.find? (fun opt => opt.sku == sku) <;> simp [h]

/-! ## Claims -/

/-- C1: a cart item whose stored price is a positive number keeps that price
through reconciliation, uncorrected, whatever the resolver returned. -/
theorem reconcile_positive_stored_price (item : CartItem)
    (resolvedOption : Option VOption) (v : ℚ)
    (hv : item.price = some v) (hpos : 0 < v) :
    reconcile item resolvedOption = { price := v, wasCorrected := false } := by
  have hne : v ≠ 0 := ne_of_gt hpos
  cases resolvedOption <;> simp [reconcile, jsOrD, hv, hne]

/-- C1 witness: stored price 5 survives even though the resolved option
would repair to 50. -/
theorem reconcile_positive_stored_price_witness :
    reconcile { sku := "A1", quantity := 1, price := some 5 }
        (some { sku := "A1", price := some 80, priceAfterDiscount := some 50 }) =
      { price := 5, wasCorrected := false } :=
  reconcile_positive_stored_price _ _ 5 rfl (by norm_num)

/-- C2: with a zero/absent stored price and a resolved option, the price is
`priceAfterDiscount` when present and truthy, else `price` when present and
truthy, else 0, corrected exactly when that value is positive; with no
resolved option the result is 0, uncorrected. -/
theorem reconcile_zero_or_absent_stored_price (item : CartItem) (opt : VOption)
    (hz : item.price = none ∨ item.price = some 0) :
    (reconcile item (some opt)).price =
      (if truthy opt.priceAfterDiscount then opt.priceAfterDiscount.getD 0
       else if truthy opt.price then opt.price.getD 0 else 0)
    ∧ ((reconcile item (some opt)).wasCorrected = true ↔
        0 < (reconcile item (some opt)).price)
    ∧ reconcile item none = { price := 0, wasCorrected := false } := by
  have hz0 : jsOrD item.price 0 = 0 := by
    rcases hz with h | h <;> simp [jsOrD, h]
  refine ⟨?_, ?_, ?_⟩
  · simp [reconcile, hz0, jsOrD_eq]
  · simp [reconcile, hz0]
  · simp [reconcile, hz0]

/-- C2 witness: stored price 0 is repaired from `priceAfterDiscount = 50`
and marked corrected; with no resolved option it stays 0, uncorrected. -/
theorem reconcile_zero_or_absent_stored_price_witness :
    (reconcile { sku := "A1", quantity := 2, price := some 0 }
        (some { sku := "A1", price := some 80, priceAfterDiscount := some 50 })).price = 50
    ∧ (reconcile { sku := "A1", quantity := 2, price := some 0 }
        (some { sku := "A1", price := some 80, priceAfterDiscount := some 50 })).wasCorrected = true
    ∧ reconcile { sku := "A1", quantity := 2, price := some 0 } none =
      { price := 0, wasCorrected := false } := by
  obtain ⟨h1, h2, h3⟩ := reconcile_zero_or_absent_stored_price
    { sku := "A1", quantity := 2, price := some 0 }
    { sku := "A1", price := some 80, priceAfterDiscount := some 50 } (Or.inr rfl)
  have h1v : (reconcile { sku := "A1", quantity := 2, price := some 0 }
      (some { sku := "A1", price := some 80, priceAfterDiscount := some 50 })).price = 50 := by
    simpa [truthy] using h1
  refine ⟨h1v, ?_, h3⟩
  rw [h2, h1v]
  norm_num

/-- C3: variant resolution returns the first option, in variant-then-option
stored order, whose SKU equals the target (first match wins under duplicate
SKUs), and returns NotFound (`none`) exactly when no option matches — it is
a total function, never an exception. -/
theorem resolve_first_match_or_not_found (p : Product) (sku : String) :
    resolve p sku =
      (p.variants.flatMap Variant.options).find? (fun opt => opt.sku == sku)
    ∧ (resolve p sku = none ↔
        ∀ opt ∈ p.variants.flatMap Variant.options, opt.sku ≠ sku) := by
  have h := findOptionBySku_eq_find_flat p.variants sku
  constructor
  · exact h
  · rw [resolve, h, List.find?_eq_none]
    simp

/-- C4: the aggregator's totals are the claimed sums and derived values, and
they all vanish on the empty item list. -/
theorem aggregate_totals (items : List AggItem) (d : ℚ) :
    totalItems items = (items.map AggItem.quantity).sum
    ∧ totalPriceBeforeDiscount items =
        (items.map (fun it => it.price * (it.quantity : ℚ))).sum
    ∧ discountAmount items d = totalPriceBeforeDiscount items * d / 100
    ∧ totalPriceAfterDiscount items d =
        totalPriceBeforeDiscount items - discountAmount items d
    ∧ displayTotal items d = totalPriceAfterDiscount items d * (11 / 10)
    ∧ totalItems [] = 0
    ∧ totalPriceBeforeDiscount [] = 0
    ∧ discountAmount [] d = 0
    ∧ totalPriceAfterDiscount [] d = 0
    ∧ displayTotal [] d = 0 := by
  refine ⟨?_, ?_, ?_, ?_, rfl, rfl, rfl, ?_, ?_, ?_⟩
  · simp [totalItems, foldl_add_map]
  · simp [totalPriceBeforeDiscount, foldl_add_map]
  · rw [discountAmount, mul_div_assoc]
  · rw [totalPriceAfterDiscount, discountAmount]; ring
  · simp [discountAmount, totalPriceBeforeDiscount]
  · simp [totalPriceAfterDiscount, totalPriceBeforeDiscount]
  · simp [displayTotal, totalPriceAfterDiscount, totalPriceBeforeDiscount]

/-- A pending, unpaid order used as a concrete test document. -/
def pendingOrder : Order :=
  { user := "u1", status := "pending", paymentStatus := "pending",
    isPaid := false, isDelivered := false, paidAt := none, deliveredAt := none }

/-- A processing order used as a concrete test document. -/
def processingOrder : Order :=
  { user := "u1", status := "processing", paymentStatus := "paid",
    isPaid := true, isDelivered := false, paidAt := some 4, deliveredAt := none }

/-- A delivered order used as a concrete test document. -/
def deliveredOrder : Order :=
  { user := "u1", status := "delivered", paymentStatus := "paid",
    isPaid := true, isDelivered := true, paidAt := some 5, deliveredAt := some 6 }

/-- C5: for the order's owner, cancellation succeeds and sets status
`cancelled` exactly when the current status is `pending`; from any other
status it fails with the 400 InvalidState error and writes nothing. -/
theorem cancelOrder_only_from_pending (o : Order) (uid : String)
    (hown : o.user = uid) :
    cancelOrder (some o) uid =
      (if o.status = "pending" then .ok { o with status := "cancelled" }
       else .error .invalidState) := by
  simp only [cancelOrder, hown, ne_eq, not_true_eq_false, if_false, ite_not]

/-- C5 witness: a pending order cancels; a processing order is rejected
with InvalidState. -/
theorem cancelOrder_only_from_pending_witness :
    cancelOrder (some pendingOrder) "u1" =
      .ok { pendingOrder with status := "cancelled" }
    ∧ cancelOrder (some processingOrder) "u1" = .error .invalidState := by
  have h1 := cancelOrder_only_from_pending pendingOrder "u1" rfl
  have h2 := cancelOrder_only_from_pending processingOrder "u1" rfl
  refine ⟨?_, ?_⟩
  · simpa [pendingOrder] using h1
  · simpa [processingOrder] using h2

/-- C6 counterexample: `markOrderAsPaid` on a pending order sets
`paymentStatus = "paid"` and `isPaid = true` but leaves `status = "pending"`,
so the paid marking does not move the order to `processing`. -/
theorem markOrderAsPaid_leaves_status_unchanged :
    (markOrderAsPaid pendingOrder 7).paymentStatus = "paid"
    ∧ (markOrderAsPaid pendingOrder 7).isPaid = true
    ∧ (markOrderAsPaid pendingOrder 7).status = "pending"
    ∧ (markOrderAsPaid pendingOrder 7).status ≠ "processing" := by
  refine ⟨rfl, rfl, rfl, by decide⟩

/-- C6 (amended): updating the payment status to `"paid"` sets
`paymentStatus`, `isPaid`, `paidAt` and forces `status = "processing"` in one
saved transition; `markOrderAsPaid` sets `paymentStatus`, `isPaid` and
`paidAt` in one saved transition but never touches the order status. -/
theorem paid_marking_transitions (o : Order) (now : ℕ) :
    updatePaymentStatus (some o) "paid" now =
      .ok { o with paymentStatus := "paid", status := "processing",
                   isPaid := true, paidAt := some now }
    ∧ markOrderAsPaid o now =
      { o with paymentStatus := "paid", isPaid := true, paidAt := some now }
    ∧ (markOrderAsPaid o now).status = o.status := by
  refine ⟨?_, rfl, rfl⟩
  simp [updatePaymentStatus, validPaymentStatuses]

/-- C7 counterexample: `updateOrderStatus` moves a delivered order back to
`pending`, so `delivered` is not a terminal status. -/
theorem delivered_status_overwritten :
    updateOrderStatus (some deliveredOrder) "pending" =
      .ok { deliveredOrder with status := "pending" }
    ∧ ({ deliveredOrder with status := "pending" } : Order).status ≠ "delivered" :=
  ⟨rfl, by decide⟩

/-- C7 (amended): for an order in `delivered` or `cancelled`,
`updateOrderStatus` still overwrites the status with any requested value,
`updatePaymentStatus "paid"` still forces it to `processing`, and
`updateOrderToDelivered` still stamps it `delivered`; only `cancelOrder`
rejects based on the current status. -/
theorem terminal_statuses_not_enforced (o : Order) (s : String) (now : ℕ)
    (hterm : o.status = "delivered" ∨ o.status = "cancelled") :
    updateOrderStatus (some o) s = .ok { o with status := s }
    ∧ updatePaymentStatus (some o) "paid" now =
        .ok { o with paymentStatus := "paid", status := "processing",
                     isPaid := true, paidAt := some now }
    ∧ updateOrderToDelivered o now =
        { o with isDelivered := true, deliveredAt := some now,
                 status := "delivered" }
    ∧ cancelOrder (some o) o.user = .error .invalidState := by
  have hnp : o.status ≠ "pending" := by
    rcases hterm with h | h <;> rw [h] <;> decide
  refine ⟨rfl, ?_, rfl, ?_⟩
  · simp [updatePaymentStatus, validPaymentStatuses]
  · simp [cancelOrder, hnp]

/-- C7 witness: the amended behaviour evaluated on a delivered order. -/
theorem terminal_statuses_not_enforced_witness :
    updateOrderStatus (some deliveredOrder) "shipped" =
      .ok { deliveredOrder with status := "shipped" }
    ∧ updatePaymentStatus (some deliveredOrder) "paid" 9 =
        .ok { deliveredOrder with
              paymentStatus := "paid", status := "processing",
              isPaid := true, paidAt := some 9 }
    ∧ updateOrderToDelivered deliveredOrder 9 =
        { deliveredOrder with
          isDelivered := true, deliveredAt := some 9, status := "delivered" }
    ∧ cancelOrder (some deliveredOrder) deliveredOrder.user =
        .error .invalidState :=
  terminal_statuses_not_enforced deliveredOrder "shipped" 9 (Or.inl rfl)

/-- C8 (code evaluated at the failing input): `"not-a-status"` is outside the
declared `validStatuses`, yet `updateOrderStatus` accepts it and saves the
order with that status instead of failing with a 400 validation error. -/
theorem updateOrderStatus_accepts_invalid_status :
    validStatuses.contains "not-a-status" = false
    ∧ updateOrderStatus (some pendingOrder) "not-a-status" =
        .ok { pendingOrder with status := "not-a-status" } :=
  ⟨by decide, rfl⟩

/-- C9: the enumeration response is the same for any save outcomes — the
enriched carts and totals are always returned and a write-back failure can
only ever reach the console log. -/
theorem writeback_failure_never_surfaced (carts : List Cart) (f g : ℕ → Bool) :
    (getAllCartsData carts f).carts = (getAllCartsData carts g).carts
    ∧ (getAllCartsData carts f).carts = carts.map cartView
    ∧ (getAllCartsData carts f).log.all
        (fun s => s == "Error updating cart prices") = true := by
  refine ⟨rfl, rfl, ?_⟩
  rw [List.all_eq_true]
  intro s hs
  simp only [getAllCartsData] at hs
  obtain ⟨i, -, hi⟩ := List.mem_filterMap.mp hs
  split at hi
  · split at hi
    · cases Option.some.inj hi
      rfl
    · exact Option.noConfusion hi
  · exact Option.noConfusion hi

/-- Only an unresolved SKU makes `buildOrderItem` fail, and then with the
400 validation error. -/
theorem buildOrderItem_error (it : PopulatedItem) (e : ApiError)
    (h : buildOrderItem it = .error e) : e = .validationError := by
  unfold buildOrderItem at h
  cases hfind : findOptionBySku it.product.variants it.sku <;> rw [hfind] at h
  · exact (Except.error.inj h).symm
  · exact Except.noConfusion h

/-- One unresolved SKU anywhere in the cart aborts the whole checkout map
with the 400 validation error. -/
theorem createOrderItems_error_of_unresolved (items : List PopulatedItem)
    (bad : PopulatedItem) (hbad : bad ∈ items)
    (hnone : findOptionBySku bad.product.variants bad.sku = none) :
    createOrderItems items = .error .validationError := by
  induction items with
  | nil => cases hbad
  | cons it rest ih =>
    rcases List.mem_cons.mp hbad with h | h
    · subst h
      simp [createOrderItems, buildOrderItem, hnone]
    · cases hhead : buildOrderItem it with
      | error e =>
        have he := buildOrderItem_error it e hhead
        subst he
        simp [createOrderItems, hhead]
      | ok oi =>
        simp [createOrderItems, hhead, ih h]

/-- C10: checkout prices an order item from the resolved option alone —
`priceAfterDiscount` when truthy, else the option's `price` — so the cart
item's stored price is ignored entirely, and any unresolved SKU in the cart
aborts the whole order with the 400 error. -/
theorem createOrder_prices_from_option_only
    (it bad : PopulatedItem) (opt : VOption) (p2 : JsNum)
    (items : List PopulatedItem)
    (hresolve : findOptionBySku it.product.variants it.sku = some opt)
    (hbad : bad ∈ items)
    (hnone : findOptionBySku bad.product.variants bad.sku = none) :
    buildOrderItem it =
      .ok { sku := it.sku, quantity := it.quantity,
            price := if truthy opt.priceAfterDiscount
                     then opt.priceAfterDiscount else opt.price }
    ∧ buildOrderItem { it with price := p2 } = buildOrderItem it
    ∧ createOrderItems items = .error .validationError := by
  refine ⟨?_, rfl, createOrderItems_error_of_unresolved items bad hbad hnone⟩
  simp [buildOrderItem, hresolve, jsOr]

/-- An option with a discounted price, for concrete checks. -/
def optA : VOption := { sku := "A1", price := some 80, priceAfterDiscount := some 50 }

/-- An option with only a base price, for concrete checks. -/
def optB : VOption := { sku := "B1", price := some 30, priceAfterDiscount := none }

/-- A product with one variant group holding both options. -/
def prodX : Product := { variants := [{ vname := "Storage", options := [optA, optB] }] }

/-- A cart item whose SKU resolves to `optB` but stores price 999. -/
def goodItem : PopulatedItem :=
  { sku := "B1", quantity := 1, price := some 999, product := prodX }

/-- A cart item whose SKU resolves to no option of its product. -/
def badItem : PopulatedItem :=
  { sku := "NOPE", quantity := 1, price := some 1, product := prodX }

/-- C10 witness: the order price for `goodItem` is the option's 30, not the
stored 999 (and changing the stored price changes nothing); the unresolved
`badItem` aborts the whole checkout. -/
theorem createOrder_prices_from_option_only_witness :
    buildOrderItem goodItem = .ok { sku := "B1", quantity := 1, price := some 30 }
    ∧ buildOrderItem { goodItem with price := some 7 } = buildOrderItem goodItem
    ∧ createOrderItems [goodItem, badItem] = .error .validationError := by
  have h := createOrder_prices_from_option_only goodItem badItem optB (some 7)
    [goodItem, badItem] (by decide) (by decide) (by decide)
  refine ⟨?_, h.2.1, h.2.2⟩
  simpa [goodItem, optB, truthy] using h.1
